import Mathlib

/-!
Verification of the TransScriptRT real-time audio pipeline.

This file gives a shallow embedding of the pipeline core of the repository:
the generic ring buffer (`include/ring_buffer_tsrt.h`), the audio segment
(`include/audio_segment_tsrt.h`), the speaker profile
(`include/speaker_id_tsrt.h`), the pipeline coordinator
(`src/script_engine_tsrt.cpp`), and the capture and stitching stage loops
(`src/main.cpp`).  `size_t` indices and sample counts are modelled as `Nat`;
`float` audio samples carry no arithmetic anywhere in the embedded code
(they are only allocated, copied and concatenated), so they are modelled as
`Int` payload values; `std::chrono` timestamps are likewise only stored and
compared, so they are modelled as `Nat`.
-/

namespace Tsrt

/-- Status codes, from `include/status_codes_tsrt.h` (enum `tsrt_status_code`). -/
inductive tsrt_status_code where
  | SUCCESS
  | INSUFFICIENT_MEMORY
  | IO_ERROR
  | INVALID_ARGUMENT
  | CONFIGURATION_ERROR
  | RUNTIME_ERROR
  | OUT_OF_RANGE_ERROR
  | TRY_AGAIN
  | INVALID_OPERATION
  | UNKNOWN_ERROR
  | STATUS_CODE_COUNT
deriving DecidableEq

open tsrt_status_code

/-- `constexpr int SAMPLE_RATE = 16000;` (`include/constants_config_tsrt.h`). -/
abbrev SAMPLE_RATE : Nat := 16000

/-- `constexpr int SEGMENT_DURATION = 50;` (milliseconds). -/
abbrev SEGMENT_DURATION : Nat := 50

/-- `constexpr int MS_PER_SEC = 1000;` -/
abbrev MS_PER_SEC : Nat := 1000

/-- `constexpr int SAMPLES_PER_SEGMENT = SAMPLE_RATE / MS_PER_SEC * SEGMENT_DURATION;`
(integer division first, as in the source). -/
abbrev SAMPLES_PER_SEGMENT : Nat := SAMPLE_RATE / MS_PER_SEC * SEGMENT_DURATION

/-- `constexpr int SAMPLES_PER_HALF_SEGMENT = SAMPLES_PER_SEGMENT / 2;` -/
abbrev SAMPLES_PER_HALF_SEGMENT : Nat := SAMPLES_PER_SEGMENT / 2

/-- `constexpr size_t AUDIO_BUFFER_SIZE = 16;` -/
abbrev AUDIO_BUFFER_SIZE : Nat := 16

/-- `constexpr int VOCAL_EMBEDDINGS_SIZE = 512;` -/
abbrev VOCAL_EMBEDDINGS_SIZE : Nat := 512

/-- `is_power_of_two` from `include/ring_buffer_tsrt.h` line 21:
`Size != 0 && (Size & (Size - 1)) == 0`. -/
def is_power_of_two (Size : Nat) : Bool :=
  Size != 0 && (Size &&& (Size - 1)) == 0

/-- `Ring_Buffer::wrap_index` from `include/ring_buffer_tsrt.h` lines 53-58:
bitmask when the compile-time size is a power of two, else modulo. -/
def wrap_index (Size index : Nat) : Nat :=
  if is_power_of_two Size then index &&& (Size - 1) else index % Size

/-- Audio samples: `float` in the source, only ever allocated, copied and
concatenated by the embedded code, so modelled by an arbitrary payload type
fixed to `Int`. -/
abbrev Sample := Int

/-- State of `Ring_Buffer<T, ThreadSafe, Size>` (`include/ring_buffer_tsrt.h`):
a backing store of `Size` default-constructed slots plus `head` (next write)
and `tail` (next read).  The store is modelled as a total function on indices;
only indices below `Size` are ever touched.  The mutex of the thread-safe
configuration guards each whole operation and adds no state of its own, so it
is not modelled; the `lazy_initialize`/`memcpy` special cases inside `push`
only affect how a slot's payload is transported, not its value. -/
structure Ring_Buffer (α : Type) (Size : Nat) where
  buffer : Nat → α
  head : Nat
  tail : Nat

namespace Ring_Buffer

variable {α : Type} {Size : Nat}

/-- `Ring_Buffer()` : head and tail start at 0, all `Size` slots
default-constructed (`std::make_unique<T[]>(Size)`); the default value is
taken as an argument `d`. -/
def init (d : α) (Size : Nat) : Ring_Buffer α Size :=
  ⟨fun _ => d, 0, 0⟩

/-- `Ring_Buffer::push` (lines 91-108): write at `head`, advance `head`,
and if `head` lands on `tail` advance `tail` too (overwrite of the oldest
unread element). -/
def push (rb : Ring_Buffer α Size) (value : α) : Ring_Buffer α Size :=
  let buffer := fun i => if i = rb.head then value else rb.buffer i
  let head := wrap_index Size (rb.head + 1)
  let tail := if head = rb.tail then wrap_index Size (rb.tail + 1) else rb.tail
  ⟨buffer, head, tail⟩

/-- `Ring_Buffer::pop` (lines 115-125): `nullopt` when `head == tail`,
otherwise return the slot at `tail` and advance `tail`.  (The C++ moves the
slot out and leaves a moved-from value behind; that slot is never read again
before being overwritten, so the store is left unchanged here.) -/
def pop (rb : Ring_Buffer α Size) : Option α × Ring_Buffer α Size :=
  if rb.head = rb.tail then (none, rb)
  else (some (rb.buffer rb.tail), ⟨rb.buffer, rb.head, wrap_index Size (rb.tail + 1)⟩)

/-- Number of unread elements determined by `head`/`tail` under the
`head == tail`-means-empty convention; this is the number of successful
pops until the buffer reports empty. -/
def count (rb : Ring_Buffer α Size) : Nat :=
  (rb.head + Size - rb.tail) % Size

/-- Pop `fuel` times, collecting the returned values and the final state. -/
def popList : Nat → Ring_Buffer α Size → List α × Ring_Buffer α Size
  | 0, rb => ([], rb)
  | n + 1, rb =>
    match rb.pop with
    | (none, rb1) => ([], rb1)
    | (some v, rb1) =>
      let r := popList n rb1
      (v :: r.1, r.2)

/-- The sequence of values obtained by popping the buffer until it reports
empty. -/
def pops (rb : Ring_Buffer α Size) : List α :=
  (popList (count rb) rb).1

/-- The buffer state after popping until it reports empty. -/
def afterPops (rb : Ring_Buffer α Size) : Ring_Buffer α Size :=
  (popList (count rb) rb).2

/-- Push each element of `l` in order. -/
def pushAll (rb : Ring_Buffer α Size) (l : List α) : Ring_Buffer α Size :=
  l.foldl push rb

end Ring_Buffer

/-- One ring-buffer operation, for describing arbitrary reachable states. -/
inductive RBOp (α : Type) where
  | push (v : α)
  | pop

/-- Apply one operation (a pop discards the returned value). -/
def applyOp {α : Type} {Size : Nat} (rb : Ring_Buffer α Size) : RBOp α → Ring_Buffer α Size
  | RBOp.push v => rb.push v
  | RBOp.pop => rb.pop.2

/-- Run a sequence of operations from the initial empty buffer. -/
def runOps {α : Type} (d : α) (Size : Nat) (ops : List (RBOp α)) : Ring_Buffer α Size :=
  ops.foldl applyOp (Ring_Buffer.init d Size)

/-- Abstract effect of one push on the queue of unread elements of a buffer
with `Size` slots: append, discarding the oldest element when `Size - 1`
elements (the maximal unread load) are already pending. -/
def absPush {α : Type} (Size : Nat) (q : List α) (v : α) : List α :=
  if q.length = Size - 1 then q.drop 1 ++ [v] else q ++ [v]

/-- `Audio_Segment` (`include/audio_segment_tsrt.h`).  The owned
`std::unique_ptr<float[]> audio` is modelled by an allocation identity
(`none` = null pointer) together with its payload, and the raw
`float* midpoint` by the pair (allocation identity, element offset) it points
at (`none` = null).  Fresh allocation identities are supplied explicitly to
the operations that call `std::make_unique`. -/
structure Audio_Segment where
  audioId : Option Nat
  audioData : List Sample
  midpoint : Option (Nat × Nat)
  timestamp : Nat
  size : Nat
deriving DecidableEq

namespace Audio_Segment

/-- Default constructor (line 38): null audio, null midpoint, size 0,
timestamp `now`. -/
def mkDefault (now : Nat) : Audio_Segment :=
  ⟨none, [], none, now, 0⟩

/-- `Audio_Segment(size_t size)` (line 40): allocate `size` zero-initialised
floats in a fresh allocation, `midpoint = audio.get() + size / 2`. -/
def mkSized (size fresh now : Nat) : Audio_Segment :=
  ⟨some fresh, List.replicate size 0, some (fresh, size / 2), now, size⟩

/-- Copy constructor (lines 43-49): fresh allocation of `other.size` floats,
`midpoint = audio.get() + other.size / 2`, then `std::copy` of the `other.size`
samples. -/
def copyCtor (other : Audio_Segment) (fresh : Nat) : Audio_Segment :=
  ⟨some fresh, other.audioData, some (fresh, other.size / 2), other.timestamp, other.size⟩

/-- Move constructor (lines 52-57): steal the allocation, copy the raw
`midpoint`, `timestamp` and `size`.  Returns (new object, moved-from source):
the source's `unique_ptr` becomes null while its `midpoint`, `timestamp` and
`size` are left as they were. -/
def moveCtor (other : Audio_Segment) : Audio_Segment × Audio_Segment :=
  (⟨other.audioId, other.audioData, other.midpoint, other.timestamp, other.size⟩,
   ⟨none, [], other.midpoint, other.timestamp, other.size⟩)

/-- Private `swap` (lines 30-34): swaps `audio`, `timestamp` and `size` —
and nothing else; in particular the two `midpoint` members stay where they
are.  Returns the pair (this, other) after swapping. -/
def swap (a b : Audio_Segment) : Audio_Segment × Audio_Segment :=
  (⟨b.audioId, b.audioData, a.midpoint, b.timestamp, b.size⟩,
   ⟨a.audioId, a.audioData, b.midpoint, a.timestamp, a.size⟩)

/-- Copy assignment `a = b` for distinct objects (lines 60-66):
copy-construct a temporary from `b` (with a fresh allocation), swap `a` with
it, and let the temporary (now holding `a`'s old buffer) be destroyed.
Result: the new value of `a`. -/
def copyAssign (a b : Audio_Segment) (fresh : Nat) : Audio_Segment :=
  (swap a (copyCtor b fresh)).1

/-- Move assignment `a = std::move(b)` (lines 69-72): `swap(other)`.
Returns (new a, what b is left holding). -/
def moveAssign (a b : Audio_Segment) : Audio_Segment × Audio_Segment :=
  swap a b

/-- `operator==` (lines 75-77): compares the timestamps only. -/
def beq (a b : Audio_Segment) : Bool :=
  a.timestamp == b.timestamp

/-- `reset_audio` (lines 79-82): fresh allocation of `size` floats,
`midpoint = audio.get() + size / 2`; timestamp and size unchanged. -/
def reset_audio (s : Audio_Segment) (fresh : Nat) : Audio_Segment :=
  ⟨some fresh, List.replicate s.size 0, some (fresh, s.size / 2), s.timestamp, s.size⟩

/-- `lazy_initialize(size)` (lines 104-111): throws `INVALID_ARGUMENT` on
size 0, otherwise a fresh allocation of `size` floats with
`midpoint = audio.get() + size / 2` and a new timestamp. -/
def lazy_initialize (_s : Audio_Segment) (size fresh now : Nat) :
    Except tsrt_status_code Audio_Segment :=
  if size = 0 then Except.error INVALID_ARGUMENT
  else Except.ok ⟨some fresh, List.replicate size 0, some (fresh, size / 2), now, size⟩

/-- The midpoint invariant claimed by the spec: whenever the segment owns a
sample buffer, `midpoint` points exactly at offset `size / 2` into that same
buffer. -/
def mid_ok (s : Audio_Segment) : Bool :=
  match s.audioId with
  | none => true
  | some aid => s.midpoint == some (aid, s.size / 2)

end Audio_Segment

/-- `Speaker_ID` (`include/speaker_id_tsrt.h`): a name, an owned embedding
vector, and the recorded vector size.  `vector_size` is `Option Nat` because
the copy constructor of the source leaves this member *uninitialised*
(indeterminate), modelled as `none`. -/
structure Speaker_ID where
  name : String
  vector : List Sample
  vector_size : Option Nat
deriving DecidableEq

namespace Speaker_ID

/-- The three-argument constructor (lines 26-27): every member initialised. -/
def mk3 (n : String) (v : List Sample) (vs : Nat) : Speaker_ID :=
  ⟨n, v, some vs⟩

/-- Copy constructor (lines 30-34): copies `name`, allocates and `memcpy`s
`other.vector_size` floats of the embedding — and never assigns
`this->vector_size`, which stays indeterminate (`none`).  The `memcpy` length
is the other object's recorded size; in every modelled path that size is
known (`some`), and the recorded size equals the actual vector length. -/
def copyCtor (other : Speaker_ID) : Speaker_ID :=
  ⟨other.name, other.vector.take (other.vector_size.getD 0), none⟩

end Speaker_ID

/-- `Script_Engine` state (`include/script_engine_tsrt.h` lines 35-42 and the
constructor at `src/script_engine_tsrt.cpp` lines 14-22): four feature flags,
`running`, `recording`, and the speaker collection.  The audio ring buffer
member is the `Ring_Buffer` modelled above and plays no part in the engine
operations embedded here. -/
structure Script_Engine where
  speaker_diarization : Bool
  speech_recognition : Bool
  speaker_identification : Bool
  emotion_recognition : Bool
  running : Bool
  recording : Bool
  speakers : List Speaker_ID
deriving DecidableEq

namespace Script_Engine

/-- The private constructor: everything false / empty. -/
def mkInit : Script_Engine :=
  ⟨false, false, false, false, false, false, []⟩

/-- `start_engine` (lines 24-26): sets `running` unconditionally. -/
def start_engine (e : Script_Engine) : Script_Engine :=
  { e with running := true }

/-- `stop_engine` (lines 28-30). -/
def stop_engine (e : Script_Engine) : Script_Engine :=
  { e with running := false }

/-- `enable_speaker_diarization` (lines 68-73). -/
def enable_speaker_diarization (e : Script_Engine) : tsrt_status_code × Script_Engine :=
  if e.speaker_diarization || e.running then (INVALID_OPERATION, e)
  else (SUCCESS, { e with speaker_diarization := true })

/-- `enable_speech_recognition` (lines 79-84). -/
def enable_speech_recognition (e : Script_Engine) : tsrt_status_code × Script_Engine :=
  if e.speech_recognition || e.running then (INVALID_OPERATION, e)
  else (SUCCESS, { e with speech_recognition := true })

/-- `enable_speaker_identification` (lines 90-95). -/
def enable_speaker_identification (e : Script_Engine) : tsrt_status_code × Script_Engine :=
  if e.speaker_identification || e.running then (INVALID_OPERATION, e)
  else (SUCCESS, { e with speaker_identification := true })

/-- `enable_emotion_recognition` (lines 101-106). -/
def enable_emotion_recognition (e : Script_Engine) : tsrt_status_code × Script_Engine :=
  if e.emotion_recognition || e.running then (INVALID_OPERATION, e)
  else (SUCCESS, { e with emotion_recognition := true })

/-- `add_speaker` (`src/script_engine_tsrt.cpp` lines 44-62).  `reserveOk`
models whether `speakers.reserve(size()+1)` succeeds (on `std::bad_alloc`
the function logs and returns `INSUFFICIENT_MEMORY` with the collection
untouched).  On success a local `Speaker_ID` is built from a copy of the
first `VOCAL_EMBEDDINGS_SIZE` values behind the `embedding` pointer
(modelled as a function from offsets to samples), and `push_back(speaker)` —
an lvalue — appends a *copy-constructed* `Speaker_ID`. -/
def add_speaker (e : Script_Engine) (reserveOk : Bool) (name : String)
    (embedding : Nat → Sample) : tsrt_status_code × Script_Engine :=
  if !reserveOk then (INSUFFICIENT_MEMORY, e)
  else
    let embedding_copy := (List.range VOCAL_EMBEDDINGS_SIZE).map embedding
    let speaker := Speaker_ID.mk3 name embedding_copy VOCAL_EMBEDDINGS_SIZE
    (SUCCESS, { e with speakers := e.speakers ++ [Speaker_ID.copyCtor speaker] })

end Script_Engine

/-!  The stitching stage, `audio_preprocessing_thread` (`src/main.cpp` lines
106-160).  Per loop iteration the stage pops a half-window of
`SAMPLES_PER_HALF_SEGMENT` samples, records its timestamp in
`current_timestamp`, feeds the samples to the FFmpeg filter graph
(`preprocess_audio_segment` only pushes the frame into the graph — it does
not write back into the half-window's buffer, see
`src/audio_tsrt.cpp` lines 170-181 — so the stitched data is the popped
data), and then either bootstraps (first half-window: `memcpy` into the
first half of the `SAMPLES_PER_SEGMENT`-sample accumulator, clear the
`first_segment` flag, `continue`) or completes the accumulator (`memcpy`
into its midpoint), stamps it with `last_timestamp`, sets
`last_timestamp = current_timestamp`, publishes the full window, resets the
accumulator and copies the half-window into its first half.  The
accumulator is modelled as its two halves. -/

/-- Per-thread state of the stitching stage. -/
structure Stitch_State where
  first_segment : Bool
  accLo : List Sample
  accHi : List Sample
  last_timestamp : Nat
deriving DecidableEq

/-- State at thread (re)start: `first_segment = true`, the accumulator
freshly `lazy_initialize`d to `SAMPLES_PER_SEGMENT` zeros, and
`last_timestamp` holding the wall-clock value `t_init` read by
`std::chrono::system_clock::now()` before the loop (line 118). -/
def stitchInit (t_init : Nat) : Stitch_State :=
  ⟨true, List.replicate SAMPLES_PER_HALF_SEGMENT 0,
   List.replicate SAMPLES_PER_HALF_SEGMENT 0, t_init⟩

/-- One iteration of the stitching loop on a popped half-window `w` with
timestamp `t`; returns the new state and the emitted full window (sample
list and stamped timestamp), if any. -/
def stitchStep (s : Stitch_State) (w : List Sample) (t : Nat) :
    Stitch_State × Option (List Sample × Nat) :=
  if s.first_segment then
    ({ s with first_segment := false, accLo := w }, none)
  else
    let window := s.accLo ++ w
    (⟨false, w, List.replicate SAMPLES_PER_HALF_SEGMENT 0, t⟩,
     some (window, s.last_timestamp))

/-- Run the stitching stage over a sequence of consumed half-windows,
collecting the emitted full windows in order. -/
def stitchRun (s : Stitch_State) : List (List Sample × Nat) → List (List Sample × Nat)
  | [] => []
  | (w, t) :: rest =>
    let r := stitchStep s w t
    match r.2 with
    | none => stitchRun r.1 rest
    | some e => e :: stitchRun r.1 rest

/-!  The capture stage, `audio_recording_thread` (`src/main.cpp` lines
27-88).  The loop keeps one boolean `err_on_last_iteration`; a failed
stream-stop, stream-start or segment-read is logged and the flag set
(retry on the next cycle), unless the flag was already set, in which case a
`Tsrt_Exception` escalates and terminates the stage; an iteration that
reaches the end of the loop body clears the flag.  The audio collaborator
is modelled at its status interface (§6 of the spec): each scheduling cycle
carries the `recording` flag value and the statuses the collaborator would
return for the operations attempted this cycle. -/

/-- Which consecutive failure escalated (the three `Tsrt_Exception` throw
sites at lines 43, 56 and 66 of `src/main.cpp`). -/
inductive Capture_Fail where
  | stopping_stream
  | starting_stream
  | reading_segment
deriving DecidableEq

/-- Environment of one scheduling cycle of the capture loop. -/
structure Capture_Env where
  recording : Bool
  stop_status : tsrt_status_code
  start_status : tsrt_status_code
  read_status : tsrt_status_code
deriving DecidableEq

/-- One scheduling cycle of the capture loop over the thread-local state
`(err_on_last_iteration, streaming)`:
* `recording` false: a pass of the inner wait loop — stop the stream if it
  is active (two-strike error handling), then sleep;
* `recording` true: start the stream if inactive (two-strike), read one
  half-window (two-strike), and on full success timestamp, push, reset and
  clear the error flag.
`Except.error k` is the fatal `Tsrt_Exception` terminating the stage. -/
def captureCycle (err streaming : Bool) (env : Capture_Env) :
    Except Capture_Fail (Bool × Bool) :=
  if env.recording = false then
    if streaming then
      if env.stop_status = SUCCESS then Except.ok (err, false)
      else if err then Except.error Capture_Fail.stopping_stream
      else Except.ok (true, streaming)
    else Except.ok (err, false)
  else
    if streaming = false then
      if env.start_status ≠ SUCCESS then
        if err then Except.error Capture_Fail.starting_stream
        else Except.ok (true, false)
      else
        if env.read_status ≠ SUCCESS then
          if err then Except.error Capture_Fail.reading_segment
          else Except.ok (true, true)
        else Except.ok (false, true)
    else
      if env.read_status ≠ SUCCESS then
        if err then Except.error Capture_Fail.reading_segment
        else Except.ok (true, true)
      else Except.ok (false, true)

/-- Abstraction relation between a concrete ring-buffer state at the
program's buffer size (`AUDIO_BUFFER_SIZE = 16`) and the queue `q` of its
unread elements, oldest first: the indices are in range, `q` is exactly as
long as the unread region, and slot `(tail + j) % 16` holds `q[j]`. -/
def Inv {α : Type} (rb : Ring_Buffer α AUDIO_BUFFER_SIZE) (q : List α) : Prop :=
  rb.head < 16 ∧ rb.tail < 16 ∧ q.length = rb.count ∧
  ∀ j, j < q.length → q[j]? = some (rb.buffer ((rb.tail + j) % 16))

/-! ## Theorems -/

/-- Bitmask with `16 - 1` agrees with remainder by `16` on every natural. -/
theorem and_fifteen_eq_mod (n : Nat) : n &&& 15 = n % 16 := by
  apply Nat.eq_of_testBit_eq
  intro i
  rw [Nat.testBit_and]
  rw [show (16 : Nat) = 2 ^ 4 by norm_num, Nat.testBit_mod_two_pow]
  rw [show (15 : Nat) = 2 ^ 4 - 1 by norm_num, Nat.testBit_two_pow_sub_one]
  rw [Bool.and_comm]

/-- At the program's buffer size both branches of `wrap_index` compute the
remainder. -/
theorem wrap_index_sixteen (n : Nat) : wrap_index AUDIO_BUFFER_SIZE n = n % 16 := by
  have hpow : is_power_of_two AUDIO_BUFFER_SIZE = true := by decide
  simp only [wrap_index, hpow, if_true]
  exact and_fifteen_eq_mod n

/-- C8: for capacity 16 (a power of two, as `is_power_of_two` certifies) and
every non-negative index, the bitmask computation `index & (capacity - 1)`
equals `index % capacity`, so `wrap_index` computes the remainder whichever
branch is compiled. -/
theorem claim_C8 (index : Nat) :
    is_power_of_two AUDIO_BUFFER_SIZE = true ∧
    index &&& (AUDIO_BUFFER_SIZE - 1) = index % AUDIO_BUFFER_SIZE ∧
    wrap_index AUDIO_BUFFER_SIZE index = index % AUDIO_BUFFER_SIZE :=
  ⟨by decide, and_fifteen_eq_mod index, wrap_index_sixteen index⟩

/-- C10: `Audio_Segment::operator==` holds exactly when the two timestamps
are equal; the sample buffers and sizes play no part, so equal-timestamp
segments with different audio compare equal and different-timestamp segments
with identical audio compare unequal. -/
theorem claim_C10 (a b : Audio_Segment) :
    Audio_Segment.beq a b = true ↔ a.timestamp = b.timestamp := by
  simp [Audio_Segment.beq]

/-- C5: for each of the four feature-enable operations, calling it when the
engine is not running and the flag is unset returns `SUCCESS` and sets the
flag; calling it again then returns `INVALID_OPERATION` with the state
unchanged; and calling it while `running` is true returns
`INVALID_OPERATION` and leaves the engine (in particular the flag)
unchanged, whatever the prior flag state. -/
theorem claim_C5 (e : Script_Engine) :
    (e.running = false → e.speaker_diarization = false →
      Script_Engine.enable_speaker_diarization e =
        (SUCCESS, { e with speaker_diarization := true }) ∧
      Script_Engine.enable_speaker_diarization { e with speaker_diarization := true } =
        (INVALID_OPERATION, { e with speaker_diarization := true })) ∧
    (e.running = true → Script_Engine.enable_speaker_diarization e = (INVALID_OPERATION, e)) ∧
    (e.running = false → e.speech_recognition = false →
      Script_Engine.enable_speech_recognition e =
        (SUCCESS, { e with speech_recognition := true }) ∧
      Script_Engine.enable_speech_recognition { e with speech_recognition := true } =
        (INVALID_OPERATION, { e with speech_recognition := true })) ∧
    (e.running = true → Script_Engine.enable_speech_recognition e = (INVALID_OPERATION, e)) ∧
    (e.running = false → e.speaker_identification = false →
      Script_Engine.enable_speaker_identification e =
        (SUCCESS, { e with speaker_identification := true }) ∧
      Script_Engine.enable_speaker_identification { e with speaker_identification := true } =
        (INVALID_OPERATION, { e with speaker_identification := true })) ∧
    (e.running = true → Script_Engine.enable_speaker_identification e = (INVALID_OPERATION, e)) ∧
    (e.running = false → e.emotion_recognition = false →
      Script_Engine.enable_emotion_recognition e =
        (SUCCESS, { e with emotion_recognition := true }) ∧
      Script_Engine.enable_emotion_recognition { e with emotion_recognition := true } =
        (INVALID_OPERATION, { e with emotion_recognition := true })) ∧
    (e.running = true → Script_Engine.enable_emotion_recognition e = (INVALID_OPERATION, e)) := by
  refine ⟨fun hr hf => ⟨?_, ?_⟩, fun hr => ?_, fun hr hf => ⟨?_, ?_⟩, fun hr => ?_,
    fun hr hf => ⟨?_, ?_⟩, fun hr => ?_, fun hr hf => ⟨?_, ?_⟩, fun hr => ?_⟩ <;>
    simp [Script_Engine.enable_speaker_diarization, Script_Engine.enable_speech_recognition,
      Script_Engine.enable_speaker_identification, Script_Engine.enable_emotion_recognition, *]

/-- C5 witness: concrete runs of `enable_speaker_diarization` on the freshly
constructed engine and on a started engine. -/
theorem claim_C5_witness :
    Script_Engine.enable_speaker_diarization Script_Engine.mkInit =
      (SUCCESS, { Script_Engine.mkInit with speaker_diarization := true }) ∧
    Script_Engine.enable_speaker_diarization
      { Script_Engine.mkInit with speaker_diarization := true } =
      (INVALID_OPERATION, { Script_Engine.mkInit with speaker_diarization := true }) ∧
    Script_Engine.enable_speaker_diarization (Script_Engine.start_engine Script_Engine.mkInit) =
      (INVALID_OPERATION, Script_Engine.start_engine Script_Engine.mkInit) :=
  ⟨((claim_C5 Script_Engine.mkInit).1 rfl rfl).1,
   ((claim_C5 Script_Engine.mkInit).1 rfl rfl).2,
   (claim_C5 (Script_Engine.start_engine Script_Engine.mkInit)).2.1 rfl⟩

/-- C6: in the capture loop, a cycle that hits an I/O failure with the
consecutive-failure flag clear never escalates — it reports the failure by
setting the flag and the stage continues; with the flag already set, a
failure of any of the three kinds (in particular a second consecutive
failure of the same kind) escalates to the fatal error of that kind; and a
fully successful iteration ends with the flag cleared. -/
theorem claim_C6 (streaming : Bool) (env : Capture_Env) :
    (∀ k, captureCycle false streaming env ≠ Except.error k) ∧
    (env.recording = false → env.stop_status ≠ SUCCESS →
      captureCycle false true env = Except.ok (true, true) ∧
      captureCycle true true env = Except.error Capture_Fail.stopping_stream) ∧
    (env.recording = true → env.start_status ≠ SUCCESS →
      captureCycle false false env = Except.ok (true, false) ∧
      captureCycle true false env = Except.error Capture_Fail.starting_stream) ∧
    (env.recording = true → env.read_status ≠ SUCCESS →
      captureCycle false true env = Except.ok (true, true) ∧
      captureCycle true true env = Except.error Capture_Fail.reading_segment) ∧
    (env.recording = true → env.start_status = SUCCESS → env.read_status = SUCCESS →
      ∀ err, captureCycle err streaming env = Except.ok (false, true)) := by
  refine ⟨?_, fun h1 h2 => ?_, fun h1 h2 => ?_, fun h1 h2 => ?_, fun h1 h2 h3 err => ?_⟩
  · intro k
    rcases env with ⟨rec, stp, strt, rd⟩
    rcases rec <;> rcases streaming <;>
      by_cases hs : stp = SUCCESS <;>
      by_cases ht : strt = SUCCESS <;>
      by_cases hd : rd = SUCCESS <;>
      simp [captureCycle, hs, ht, hd]
  · constructor <;> simp [captureCycle, h1, h2]
  · constructor <;> simp [captureCycle, h1, h2]
  · constructor <;> simp [captureCycle, h1, h2]
  · rcases streaming <;> simp [captureCycle, h1, h2, h3]

/-- C6 witness: one concrete environment per clause — a failing stop while
waiting, a failing start, a failing read, and a fully successful recording
cycle. -/
theorem claim_C6_witness :
    captureCycle false true ⟨false, IO_ERROR, SUCCESS, SUCCESS⟩ = Except.ok (true, true) ∧
    captureCycle true true ⟨false, IO_ERROR, SUCCESS, SUCCESS⟩ =
      Except.error Capture_Fail.stopping_stream ∧
    captureCycle false false ⟨true, SUCCESS, IO_ERROR, SUCCESS⟩ = Except.ok (true, false) ∧
    captureCycle true false ⟨true, SUCCESS, IO_ERROR, SUCCESS⟩ =
      Except.error Capture_Fail.starting_stream ∧
    captureCycle false true ⟨true, SUCCESS, SUCCESS, IO_ERROR⟩ = Except.ok (true, true) ∧
    captureCycle true true ⟨true, SUCCESS, SUCCESS, IO_ERROR⟩ =
      Except.error Capture_Fail.reading_segment ∧
    captureCycle true false ⟨true, SUCCESS, SUCCESS, SUCCESS⟩ = Except.ok (false, true) :=
  ⟨((claim_C6 true ⟨false, IO_ERROR, SUCCESS, SUCCESS⟩).2.1 rfl (by decide)).1,
   ((claim_C6 true ⟨false, IO_ERROR, SUCCESS, SUCCESS⟩).2.1 rfl (by decide)).2,
   ((claim_C6 false ⟨true, SUCCESS, IO_ERROR, SUCCESS⟩).2.2.1 rfl (by decide)).1,
   ((claim_C6 false ⟨true, SUCCESS, IO_ERROR, SUCCESS⟩).2.2.1 rfl (by decide)).2,
   ((claim_C6 true ⟨true, SUCCESS, SUCCESS, IO_ERROR⟩).2.2.2.1 rfl (by decide)).1,
   ((claim_C6 true ⟨true, SUCCESS, SUCCESS, IO_ERROR⟩).2.2.2.1 rfl (by decide)).2,
   (claim_C6 false ⟨true, SUCCESS, SUCCESS, SUCCESS⟩).2.2.2.2 rfl rfl rfl true⟩

/-- C1 (code evaluation): on three half-windows `A@t0, B@t1, C@t2` consumed
after a (re)start, the stitcher emits exactly the two full windows
`[A|B]` then `[B|C]`, each the concatenation of the two consecutive halves
split at the midpoint, and the second is stamped `t1`; but the first is
stamped with the pre-loop initialisation value `t_init` of `last_timestamp`
(the wall-clock reading at thread start, line 118 of `src/main.cpp`), not
`t0`, because the bootstrap branch (lines 142-146) returns without
executing `last_timestamp = current_timestamp`: after the first half-window
`last_timestamp` still holds `t_init`, not `t0`. -/
theorem claim_C1_code (A B C : List Sample) (t0 t1 t2 t_init : Nat) :
    stitchRun (stitchInit t_init) [(A, t0), (B, t1), (C, t2)] =
      [(A ++ B, t_init), (B ++ C, t1)] ∧
    (stitchStep (stitchInit t_init) A t0).1.last_timestamp = t_init := by
  constructor <;> rfl

/-- C4 (code evaluation): sized construction, copy construction,
`reset_audio` and `lazy_initialize` all re-establish the midpoint invariant,
and move construction transports the midpoint together with the buffer; but
`swap` (and hence copy assignment and move assignment, both implemented
through it) leaves each object's `midpoint` member untouched, so after
`a = b` the midpoint of `a` still points at offset `old_size/2` of `a`'s old
allocation (now owned and freed by the swap temporary) instead of at
`size/2` of its new buffer — concretely violated by copy-assigning (or
move-assigning) a 6-sample segment over a 4-sample one. -/
theorem claim_C4_code (a b : Audio_Segment) (size fresh now : Nat) :
    Audio_Segment.mid_ok (Audio_Segment.mkSized size fresh now) = true ∧
    Audio_Segment.mid_ok (Audio_Segment.copyCtor a fresh) = true ∧
    Audio_Segment.mid_ok (Audio_Segment.reset_audio a fresh) = true ∧
    Audio_Segment.lazy_initialize a (size + 1) fresh now =
      Except.ok (Audio_Segment.mkSized (size + 1) fresh now) ∧
    ((Audio_Segment.moveCtor a).1.midpoint = a.midpoint ∧
      (Audio_Segment.moveCtor a).1.audioId = a.audioId ∧
      (Audio_Segment.moveCtor a).1.size = a.size) ∧
    (Audio_Segment.copyAssign a b fresh).midpoint = a.midpoint ∧
    (Audio_Segment.copyAssign a b fresh).audioId = some fresh ∧
    (Audio_Segment.copyAssign a b fresh).size = b.size ∧
    (Audio_Segment.moveAssign a b).1.midpoint = a.midpoint ∧
    Audio_Segment.mid_ok (Audio_Segment.copyAssign (Audio_Segment.mkSized 4 1 10)
        (Audio_Segment.mkSized 6 2 20) 3) = false ∧
    Audio_Segment.mid_ok ((Audio_Segment.moveAssign (Audio_Segment.mkSized 4 1 10)
        (Audio_Segment.mkSized 6 2 20)).1) = false := by
  refine ⟨?_, ?_, ?_, ?_, ⟨rfl, rfl, rfl⟩, rfl, rfl, rfl, rfl, ?_, ?_⟩ <;>
    simp [Audio_Segment.mid_ok, Audio_Segment.mkSized, Audio_Segment.copyCtor,
      Audio_Segment.reset_audio, Audio_Segment.lazy_initialize,
      Audio_Segment.copyAssign, Audio_Segment.moveAssign, Audio_Segment.swap]

/-- C7 (code evaluation): `add_speaker` copies the first
`VOCAL_EMBEDDINGS_SIZE` values behind the embedding pointer and appends one
profile, returning `SUCCESS`, and a failed reservation returns
`INSUFFICIENT_MEMORY` with the collection unchanged; but the appended
profile is produced by `push_back`'s call to the `Speaker_ID` copy
constructor, which never initialises `vector_size`, so the stored profile's
recorded embedding length is indeterminate (`none`) rather than
`VOCAL_EMBEDDINGS_SIZE`. -/
theorem claim_C7_code (e : Script_Engine) (name : String) (embedding : Nat → Sample) :
    Script_Engine.add_speaker e true name embedding =
      (SUCCESS, { e with speakers := e.speakers ++
        [⟨name, (List.range VOCAL_EMBEDDINGS_SIZE).map embedding, none⟩] }) ∧
    (∀ vs : Nat,
      (⟨name, (List.range VOCAL_EMBEDDINGS_SIZE).map embedding, none⟩ : Speaker_ID).vector_size ≠
        some vs) ∧
    Script_Engine.add_speaker e false name embedding = (INSUFFICIENT_MEMORY, e) := by
  refine ⟨?_, fun vs => by simp, rfl⟩
  have htake : ((List.range VOCAL_EMBEDDINGS_SIZE).map embedding).take VOCAL_EMBEDDINGS_SIZE =
      (List.range VOCAL_EMBEDDINGS_SIZE).map embedding := by
    apply List.take_of_length_le
    simp
  simp [Script_Engine.add_speaker, Speaker_ID.copyCtor, Speaker_ID.mk3, htake]

/-- A freshly constructed buffer abstracts to the empty queue. -/
theorem inv_init {α : Type} (d : α) : Inv (Ring_Buffer.init d AUDIO_BUFFER_SIZE) [] := by
  refine ⟨by simp [Ring_Buffer.init], by simp [Ring_Buffer.init], ?_, ?_⟩
  · simp [Ring_Buffer.init, Ring_Buffer.count]
  · intro j hj
    simp at hj

/-- The concrete shape of `push` at the program's buffer size. -/
theorem push_sixteen {α : Type} (rb : Ring_Buffer α AUDIO_BUFFER_SIZE) (v : α) :
    rb.push v = ⟨fun i => if i = rb.head then v else rb.buffer i, (rb.head + 1) % 16,
      if (rb.head + 1) % 16 = rb.tail then (rb.tail + 1) % 16 else rb.tail⟩ := by
  simp [Ring_Buffer.push, wrap_index_sixteen]

/-- The concrete shape of `pop` on a non-empty buffer at the program's
buffer size. -/
theorem pop_sixteen {α : Type} (rb : Ring_Buffer α AUDIO_BUFFER_SIZE)
    (hne : rb.head ≠ rb.tail) :
    rb.pop = (some (rb.buffer rb.tail), ⟨rb.buffer, rb.head, (rb.tail + 1) % 16⟩) := by
  simp [Ring_Buffer.pop, hne, wrap_index_sixteen]

/-- `push` refines `absPush` through the abstraction relation. -/
theorem inv_push {α : Type} {rb : Ring_Buffer α AUDIO_BUFFER_SIZE} {q : List α}
    (hI : Inv rb q) (v : α) : Inv (rb.push v) (absPush AUDIO_BUFFER_SIZE q v) := by
  obtain ⟨hh, ht, hlen, hbuf⟩ := hI
  have hcnt : q.length = (rb.head + 16 - rb.tail) % 16 := hlen
  have habs : absPush AUDIO_BUFFER_SIZE q v =
      if q.length = 15 then q.drop 1 ++ [v] else q ++ [v] := rfl
  rw [push_sixteen, habs]
  by_cases hfull : q.length = 15
  · have hht : (rb.head + 1) % 16 = rb.tail := by omega
    rw [if_pos hfull, if_pos hht]
    show (rb.head + 1) % 16 < 16 ∧ (rb.tail + 1) % 16 < 16 ∧
      (q.drop 1 ++ [v]).length = ((rb.head + 1) % 16 + 16 - (rb.tail + 1) % 16) % 16 ∧
      ∀ j, j < (q.drop 1 ++ [v]).length →
        (q.drop 1 ++ [v])[j]? = some (if ((rb.tail + 1) % 16 + j) % 16 = rb.head then v
          else rb.buffer (((rb.tail + 1) % 16 + j) % 16))
    refine ⟨by omega, by omega, ?_, ?_⟩
    · simp only [List.length_append, List.length_drop, List.length_singleton]
      omega
    · intro j hj
      simp only [List.length_append, List.length_drop, List.length_singleton] at hj
      by_cases hj14 : j < 14
      · have hjd : j < (q.drop 1).length := by simp; omega
        have hne : (rb.tail + (1 + j)) % 16 ≠ rb.head := by omega
        have hidx : ((rb.tail + 1) % 16 + j) % 16 = (rb.tail + (1 + j)) % 16 := by omega
        rw [List.getElem?_append_left hjd, List.getElem?_drop, hbuf (1 + j) (by omega),
          hidx, if_neg hne]
      · have hj14' : j = 14 := by omega
        subst hj14'
        have hjd : (q.drop 1).length ≤ 14 := by simp; omega
        have heq : ((rb.tail + 1) % 16 + 14) % 16 = rb.head := by omega
        rw [List.getElem?_append_right hjd, heq, if_pos rfl]
        have hz : 14 - (q.drop 1).length = 0 := by simp; omega
        rw [hz]
        rfl
  · have hq : q.length < 15 := by omega
    have hht : (rb.head + 1) % 16 ≠ rb.tail := by omega
    rw [if_neg hfull, if_neg hht]
    show (rb.head + 1) % 16 < 16 ∧ rb.tail < 16 ∧
      (q ++ [v]).length = ((rb.head + 1) % 16 + 16 - rb.tail) % 16 ∧
      ∀ j, j < (q ++ [v]).length →
        (q ++ [v])[j]? = some (if (rb.tail + j) % 16 = rb.head then v
          else rb.buffer ((rb.tail + j) % 16))
    refine ⟨by omega, ht, ?_, ?_⟩
    · simp only [List.length_append, List.length_singleton]
      omega
    · intro j hj
      simp only [List.length_append, List.length_singleton] at hj
      by_cases hjq : j < q.length
      · have hne : (rb.tail + j) % 16 ≠ rb.head := by omega
        rw [List.getElem?_append_left hjq, hbuf j hjq, if_neg hne]
      · have hjq' : j = q.length := by omega
        subst hjq'
        have heq : (rb.tail + q.length) % 16 = rb.head := by omega
        rw [List.getElem?_append_right (le_refl _), heq, if_pos rfl, Nat.sub_self]
        rfl

/-- An empty abstract queue means `pop` reports empty and leaves the state
unchanged. -/
theorem inv_pop_nil {α : Type} {rb : Ring_Buffer α AUDIO_BUFFER_SIZE}
    (hI : Inv rb []) : rb.pop = (none, rb) := by
  obtain ⟨hh, ht, hlen, _⟩ := hI
  have hcnt : (0 : Nat) = (rb.head + 16 - rb.tail) % 16 := hlen
  have heq : rb.head = rb.tail := by omega
  simp [Ring_Buffer.pop, heq]

/-- A non-empty abstract queue means `pop` returns its oldest element and
the rest abstracts the successor state. -/
theorem inv_pop_cons {α : Type} {rb : Ring_Buffer α AUDIO_BUFFER_SIZE} {a : α}
    {q' : List α} (hI : Inv rb (a :: q')) :
    rb.pop.1 = some a ∧ Inv rb.pop.2 q' := by
  obtain ⟨hh, ht, hlen, hbuf⟩ := hI
  have hcnt : q'.length + 1 = (rb.head + 16 - rb.tail) % 16 := hlen
  have hne : rb.head ≠ rb.tail := by omega
  have h0 := hbuf 0 (by simp)
  have ht0 : (rb.tail + 0) % 16 = rb.tail := by omega
  rw [ht0] at h0
  simp only [List.getElem?_cons_zero, Option.some.injEq] at h0
  rw [pop_sixteen rb hne]
  constructor
  · show some (rb.buffer rb.tail) = some a
    rw [h0]
  · show Inv ⟨rb.buffer, rb.head, (rb.tail + 1) % 16⟩ q'
    refine ⟨hh, by show (rb.tail + 1) % 16 < 16; omega, ?_, ?_⟩
    · show q'.length = (rb.head + 16 - (rb.tail + 1) % 16) % 16
      omega
    · intro j hj
      have hidx : ((rb.tail + 1) % 16 + j) % 16 = (rb.tail + (j + 1)) % 16 := by omega
      show q'[j]? = some (rb.buffer (((rb.tail + 1) % 16 + j) % 16))
      rw [hidx, ← hbuf (j + 1) (by simp; omega)]
      simp

/-- Popping as many times as the abstract queue is long returns exactly the
queue and leaves a state abstracting the empty queue. -/
theorem popList_inv {α : Type} :
    ∀ (q : List α) (rb : Ring_Buffer α AUDIO_BUFFER_SIZE), Inv rb q →
      (Ring_Buffer.popList q.length rb).1 = q ∧
      Inv (Ring_Buffer.popList q.length rb).2 []
  | [], _, hI => ⟨rfl, hI⟩
  | a :: q', rb, hI => by
    obtain ⟨h1, h2⟩ := inv_pop_cons hI
    rcases hp : rb.pop with ⟨o, rb1⟩
    rw [hp] at h1 h2
    simp only at h1 h2
    subst h1
    have ih := popList_inv q' rb1 h2
    simp only [List.length_cons, Ring_Buffer.popList, hp]
    exact ⟨by rw [ih.1], ih.2⟩

/-- Draining a buffer that abstracts `q` yields exactly `q`, after which
`pop` reports empty. -/
theorem pops_of_inv {α : Type} {rb : Ring_Buffer α AUDIO_BUFFER_SIZE} {q : List α}
    (hI : Inv rb q) :
    Ring_Buffer.pops rb = q ∧ (Ring_Buffer.afterPops rb).pop.1 = none := by
  have hlen : q.length = rb.count := hI.2.2.1
  have h := popList_inv q rb hI
  unfold Ring_Buffer.pops Ring_Buffer.afterPops
  rw [← hlen]
  exact ⟨h.1, by rw [inv_pop_nil h.2]⟩

/-- `pushAll` refines folding `absPush` through the abstraction relation. -/
theorem inv_pushAll {α : Type} :
    ∀ (l : List α) {rb : Ring_Buffer α AUDIO_BUFFER_SIZE} {q : List α}, Inv rb q →
      Inv (rb.pushAll l) (l.foldl (absPush AUDIO_BUFFER_SIZE) q)
  | [], _, _, hI => hI
  | x :: xs, rb, q, hI => by
    show Inv ((rb.push x).pushAll xs) (xs.foldl (absPush AUDIO_BUFFER_SIZE) (absPush AUDIO_BUFFER_SIZE q x))
    exact inv_pushAll xs (inv_push hI x)

/-- Every state reachable by pushes and pops abstracts to some queue. -/
theorem inv_foldOps {α : Type} :
    ∀ (ops : List (RBOp α)) {rb : Ring_Buffer α AUDIO_BUFFER_SIZE} {q : List α}, Inv rb q →
      ∃ q', Inv (ops.foldl applyOp rb) q'
  | [], _, q, hI => ⟨q, hI⟩
  | op :: ops, rb, q, hI => by
    show ∃ q', Inv (ops.foldl applyOp (applyOp rb op)) q'
    match op with
    | RBOp.push v => exact inv_foldOps ops (inv_push hI v)
    | RBOp.pop =>
      match q, hI with
      | [], hI =>
        have hrb : applyOp rb RBOp.pop = rb := by
          show rb.pop.2 = rb
          rw [inv_pop_nil hI]
        rw [hrb]
        exact inv_foldOps ops hI
      | a :: q', hI => exact inv_foldOps ops (inv_pop_cons hI).2

/-- Folding `absPush` from the empty queue keeps the last (at most) 15
pushed values, oldest first. -/
theorem absPush_foldl {α : Type} (l : List α) :
    l.foldl (absPush AUDIO_BUFFER_SIZE) [] = l.drop (l.length - 15) := by
  induction l using List.reverseRecOn with
  | nil => rfl
  | append_singleton xs v ih =>
    rw [List.foldl_append, ih]
    show absPush AUDIO_BUFFER_SIZE (xs.drop (xs.length - 15)) v =
      (xs ++ [v]).drop ((xs ++ [v]).length - 15)
    have habs : absPush AUDIO_BUFFER_SIZE (xs.drop (xs.length - 15)) v =
        if (xs.drop (xs.length - 15)).length = 15 then
          (xs.drop (xs.length - 15)).drop 1 ++ [v]
        else xs.drop (xs.length - 15) ++ [v] := rfl
    rw [habs]
    by_cases hx : xs.length < 15
    · have h1 : xs.length - 15 = 0 := by omega
      have h2 : (xs ++ [v]).length - 15 = 0 := by
        simp only [List.length_append, List.length_singleton]
        omega
      rw [if_neg (by simp only [List.length_drop]; omega), h1, h2, List.drop_zero,
        List.drop_zero]
    · have hlendrop : (xs.drop (xs.length - 15)).length = 15 := by
        simp
        omega
      rw [if_pos hlendrop, List.drop_drop]
      have h3 : xs.length - 15 + 1 = (xs ++ [v]).length - 15 := by
        simp only [List.length_append, List.length_singleton]
        omega
      have h4 : (xs ++ [v]).length - 15 ≤ xs.length := by
        simp only [List.length_append, List.length_singleton]
        omega
      rw [h3, List.drop_append_of_le_length h4]

/-- Pushing any list into the fresh buffer and then draining returns the
last at most 15 values in order, and a further pop reports empty. -/
theorem pops_pushAll {α : Type} (d : α) (l : List α) :
    Ring_Buffer.pops ((Ring_Buffer.init d AUDIO_BUFFER_SIZE).pushAll l) =
      l.drop (l.length - 15) ∧
    ((Ring_Buffer.afterPops ((Ring_Buffer.init d AUDIO_BUFFER_SIZE).pushAll l)).pop).1 =
      none := by
  have hI := inv_pushAll l (inv_init d)
  rw [absPush_foldl] at hI
  exact pops_of_inv hI

/-- On a state abstracting a queue, the drained sequence is at most 15 long,
and a push at full load (15 unread) advances head onto the old tail,
advances the tail, and discards exactly the oldest unread element. -/
theorem inv_full_push {α : Type} {rb : Ring_Buffer α AUDIO_BUFFER_SIZE} {q : List α}
    (hI : Inv rb q) (v : α) :
    (Ring_Buffer.pops rb).length ≤ 15 ∧
    ((Ring_Buffer.pops rb).length = 15 →
      (rb.head + 1) % 16 = rb.tail ∧
      (rb.push v).tail = (rb.tail + 1) % 16 ∧
      Ring_Buffer.pops (rb.push v) = (Ring_Buffer.pops rb).drop 1 ++ [v]) := by
  obtain ⟨hh, ht, hlen, hbuf⟩ := hI
  have hI' : Inv rb q := ⟨hh, ht, hlen, hbuf⟩
  have hpops := pops_of_inv hI'
  have hcnt : q.length = (rb.head + 16 - rb.tail) % 16 := hlen
  rw [hpops.1]
  constructor
  · omega
  · intro hfull
    have hht : (rb.head + 1) % 16 = rb.tail := by omega
    refine ⟨hht, ?_, ?_⟩
    · rw [push_sixteen]
      show (if (rb.head + 1) % 16 = rb.tail then (rb.tail + 1) % 16 else rb.tail) =
        (rb.tail + 1) % 16
      rw [if_pos hht]
    · have hIp := inv_push hI' v
      have habs : absPush AUDIO_BUFFER_SIZE q v = q.drop 1 ++ [v] := by
        unfold absPush
        rw [if_pos (show q.length = AUDIO_BUFFER_SIZE - 1 from hfull)]
      rw [habs] at hIp
      rw [(pops_of_inv hIp).1]

/-- C2 (amended): for every sequence of `N` pushes of distinct values into
an initially empty ring buffer followed by repeated pops, with
`N ≤ capacity - 1` (the buffer reserves `head == tail` for emptiness, so at
most `capacity - 1 = 15` elements are ever unread), the pops return exactly
the `N` pushed values in push order and then return empty. -/
theorem claim_C2 {α : Type} (d : α) (l : List α) (_hdist : l.Nodup)
    (hlen : l.length ≤ AUDIO_BUFFER_SIZE - 1) :
    Ring_Buffer.pops ((Ring_Buffer.init d AUDIO_BUFFER_SIZE).pushAll l) = l ∧
    ((Ring_Buffer.afterPops
        ((Ring_Buffer.init d AUDIO_BUFFER_SIZE).pushAll l)).pop).1 = none := by
  have hlen' : l.length ≤ 15 := hlen
  have h := pops_pushAll d l
  have h0 : l.length - 15 = 0 := by omega
  rw [h0, List.drop_zero] at h
  exact h

/-- C2 witness: pushing the three distinct values 10, 20, 30 and draining. -/
theorem claim_C2_witness :
    ([10, 20, 30] : List Nat).Nodup ∧
    ([10, 20, 30] : List Nat).length ≤ AUDIO_BUFFER_SIZE - 1 ∧
    Ring_Buffer.pops ((Ring_Buffer.init (0 : Nat) AUDIO_BUFFER_SIZE).pushAll [10, 20, 30]) =
      [10, 20, 30] ∧
    ((Ring_Buffer.afterPops
        ((Ring_Buffer.init (0 : Nat) AUDIO_BUFFER_SIZE).pushAll [10, 20, 30])).pop).1 = none :=
  ⟨by decide, by decide,
   (claim_C2 0 [10, 20, 30] (by decide) (by decide)).1,
   (claim_C2 0 [10, 20, 30] (by decide) (by decide)).2⟩

/-- C2 counterexample: 16 distinct pushes satisfy `N ≤ capacity`, yet the
pops do not return all 16 pushed values — the 16th push overwrote the
oldest, because `head == tail` is reserved to mean empty. -/
theorem claim_C2_counterexample :
    (List.range 16).Nodup ∧ (List.range 16).length ≤ AUDIO_BUFFER_SIZE ∧
    Ring_Buffer.pops ((Ring_Buffer.init (0 : Nat) AUDIO_BUFFER_SIZE).pushAll (List.range 16)) ≠
      List.range 16 :=
  ⟨by decide, by decide, by decide⟩

/-- C3 (amended): for every sequence of `N > capacity` pushes into an
initially empty ring buffer followed by repeated pops, the pops return
exactly the last `capacity - 1` pushed values (not the last `capacity`),
oldest of those first, and then return empty; each overwrite on a full
buffer discards exactly the oldest unread element. -/
theorem claim_C3 {α : Type} (d : α) (l : List α) (_hlen : AUDIO_BUFFER_SIZE < l.length) :
    Ring_Buffer.pops ((Ring_Buffer.init d AUDIO_BUFFER_SIZE).pushAll l) =
      l.drop (l.length - (AUDIO_BUFFER_SIZE - 1)) ∧
    ((Ring_Buffer.afterPops
        ((Ring_Buffer.init d AUDIO_BUFFER_SIZE).pushAll l)).pop).1 = none :=
  pops_pushAll d l

/-- C3 witness: 17 pushes leave the last 15 values. -/
theorem claim_C3_witness :
    AUDIO_BUFFER_SIZE < (List.range 17).length ∧
    Ring_Buffer.pops ((Ring_Buffer.init (0 : Nat) AUDIO_BUFFER_SIZE).pushAll (List.range 17)) =
      (List.range 17).drop ((List.range 17).length - (AUDIO_BUFFER_SIZE - 1)) ∧
    ((Ring_Buffer.afterPops
        ((Ring_Buffer.init (0 : Nat) AUDIO_BUFFER_SIZE).pushAll (List.range 17))).pop).1 =
      none :=
  ⟨by decide,
   (claim_C3 0 (List.range 17) (by decide)).1,
   (claim_C3 0 (List.range 17) (by decide)).2⟩

/-- C3 counterexample: after 17 pushes the pops are not the last `capacity`
(16) pushed values — only 15 values come back. -/
theorem claim_C3_counterexample :
    AUDIO_BUFFER_SIZE < (List.range 17).length ∧
    Ring_Buffer.pops ((Ring_Buffer.init (0 : Nat) AUDIO_BUFFER_SIZE).pushAll (List.range 17)) ≠
      (List.range 17).drop ((List.range 17).length - AUDIO_BUFFER_SIZE) :=
  ⟨by decide, by decide⟩

/-- C9: in every state reachable from the initial empty buffer by pushes and
pops, the number of unread (poppable) elements is at most `capacity - 1`;
and pushing into a buffer holding exactly `capacity - 1` unread elements
advances `head` onto `tail` (so the push advances `tail` as well, since
`head == tail` is reserved to mean empty), discarding exactly the oldest
unread element. -/
theorem claim_C9 {α : Type} (d : α) (ops : List (RBOp α)) (v : α) :
    (Ring_Buffer.pops (runOps d AUDIO_BUFFER_SIZE ops)).length ≤ AUDIO_BUFFER_SIZE - 1 ∧
    ((Ring_Buffer.pops (runOps d AUDIO_BUFFER_SIZE ops)).length = AUDIO_BUFFER_SIZE - 1 →
      wrap_index AUDIO_BUFFER_SIZE ((runOps d AUDIO_BUFFER_SIZE ops).head + 1) =
        (runOps d AUDIO_BUFFER_SIZE ops).tail ∧
      ((runOps d AUDIO_BUFFER_SIZE ops).push v).tail =
        wrap_index AUDIO_BUFFER_SIZE ((runOps d AUDIO_BUFFER_SIZE ops).tail + 1) ∧
      Ring_Buffer.pops ((runOps d AUDIO_BUFFER_SIZE ops).push v) =
        (Ring_Buffer.pops (runOps d AUDIO_BUFFER_SIZE ops)).drop 1 ++ [v]) := by
  obtain ⟨q, hI⟩ := inv_foldOps ops (inv_init d)
  have hI' : Inv (runOps d AUDIO_BUFFER_SIZE ops) q := hI
  have h := inv_full_push hI' v
  rw [wrap_index_sixteen, wrap_index_sixteen]
  exact ⟨h.1, fun hfull => h.2 hfull⟩

/-- C9 witness: after 15 pushes the buffer holds 15 unread elements, and a
16th push wraps `head` onto `tail`, advances `tail`, and drops the oldest. -/
theorem claim_C9_witness :
    (Ring_Buffer.pops
        (runOps (0 : Nat) AUDIO_BUFFER_SIZE ((List.range 15).map RBOp.push))).length ≤
      AUDIO_BUFFER_SIZE - 1 ∧
    wrap_index AUDIO_BUFFER_SIZE
        ((runOps (0 : Nat) AUDIO_BUFFER_SIZE ((List.range 15).map RBOp.push)).head + 1) =
      (runOps (0 : Nat) AUDIO_BUFFER_SIZE ((List.range 15).map RBOp.push)).tail ∧
    ((runOps (0 : Nat) AUDIO_BUFFER_SIZE ((List.range 15).map RBOp.push)).push 99).tail =
      wrap_index AUDIO_BUFFER_SIZE
        ((runOps (0 : Nat) AUDIO_BUFFER_SIZE ((List.range 15).map RBOp.push)).tail + 1) ∧
    Ring_Buffer.pops
        ((runOps (0 : Nat) AUDIO_BUFFER_SIZE ((List.range 15).map RBOp.push)).push 99) =
      (Ring_Buffer.pops
        (runOps (0 : Nat) AUDIO_BUFFER_SIZE ((List.range 15).map RBOp.push))).drop 1 ++ [99] := by
  have h := claim_C9 (0 : Nat) ((List.range 15).map RBOp.push) 99
  have hfull : (Ring_Buffer.pops
      (runOps (0 : Nat) AUDIO_BUFFER_SIZE ((List.range 15).map RBOp.push))).length =
      AUDIO_BUFFER_SIZE - 1 := by decide
  exact ⟨h.1, (h.2 hfull).1, (h.2 hfull).2.1, (h.2 hfull).2.2⟩

end Tsrt
